import Mathlib

/-!
Shallow embedding of the vanderbilt-design-studio/public-endpoint service
(main.py, sign.py, mentors.py) and proofs about its per-message behaviour.

Conventions:
- Wall-clock instants are natural numbers of seconds.
- JSON values that the hub only passes through (the `printers` field, the
  serialized hours list) are carried as their serialized strings.
- Calls to external collaborators (`get_mentors_on_duty`, `get_weather`,
  `get_hours`) are modelled as environment-supplied results; `Except Unit`
  captures that a call may raise.
-/

namespace PublicEndpoint

/-- Enumeration of channels, mirroring `ClientType` in main.py. -/
inductive ClientType where
  | POLLER
  | PRINTERS
  | SIGN
  | HOURS
deriving DecidableEq, Repr

/-- Result type of the sign decision logic, mirroring `OpenType` in sign.py. -/
inductive OpenType where
  | CLOSED
  | OPEN
  | FORCE_OPEN
  | FORCE_CLOSE
deriving DecidableEq, Repr

/-- Truthiness of the two switch fields of the producer message
(`sign.switch.one_on`, `sign.switch.two_on`). -/
structure SwitchState where
  one_on : Bool
  two_on : Bool
deriving DecidableEq, Repr

/-- Truthiness of the `sign.door` field together with the switch object. -/
structure SignState where
  door : Bool
  switch : SwitchState
deriving DecidableEq, Repr

/-- The parsed producer JSON object as far as the hub inspects it:
the `key` field (absent or a string), the `sign` object (absent or present),
and the `printers` field carried as its serialized form (absent or present;
accessing it when absent raises KeyError in the source). -/
structure PollerJson where
  key : Option String
  sign : Option SignState
  printers : Option String
deriving DecidableEq, Repr

/-- Decision logic of sign.py `is_open(poller_json, mentors_on_duty)`:
door truthy forces CLOSED; else switch one on follows the shift schedule;
else switch two on forces open; else forced closed. The source also warns
when both switches are on, which has no effect on the returned value. -/
def is_open (poller_json : PollerJson) (mentors_on_duty : List String) : OpenType :=
  match poller_json.sign with
  | none => if mentors_on_duty.length > 0 then OpenType.OPEN else OpenType.CLOSED
  | some s =>
    if s.door then OpenType.CLOSED
    else if s.switch.one_on then
      (if mentors_on_duty.length > 0 then OpenType.OPEN else OpenType.CLOSED)
    else if s.switch.two_on then OpenType.FORCE_OPEN
    else OpenType.FORCE_CLOSE

/-- Constant `POLLER_JSON_TIMEOUT_SECONDS` of main.py. -/
def POLLER_JSON_TIMEOUT_SECONDS : Nat := 30

/-- Constant `CLIENT_JOINALL_TIMEOUT_SECONDS` of main.py. -/
def CLIENT_JOINALL_TIMEOUT_SECONDS : Nat := 5

/-- The dictionary `last_poller_json_str_dict` of main.py: at most one cached
serialized payload per channel; absence means never computed. -/
structure Cache where
  poller : Option String
  printers : Option String
  sign : Option String
  hours : Option String
deriving DecidableEq, Repr

/-- Lookup in the cache dictionary by channel key. -/
def Cache.get (c : Cache) : ClientType → Option String
  | ClientType.POLLER => c.poller
  | ClientType.PRINTERS => c.printers
  | ClientType.SIGN => c.sign
  | ClientType.HOURS => c.hours

/-- Assignment `last_poller_json_str_dict[ctype] = v`. -/
def Cache.set (c : Cache) : ClientType → String → Cache
  | ClientType.POLLER, v => { c with poller := some v }
  | ClientType.PRINTERS, v => { c with printers := some v }
  | ClientType.SIGN, v => { c with sign := some v }
  | ClientType.HOURS, v => { c with hours := some v }

/-- The hub's mutable globals: `last_poller_json_str_dict` and
`last_poller_json_time` (None before the first authenticated update). -/
structure HubState where
  cache : Cache
  lastTime : Option Nat
deriving DecidableEq, Repr

/-- Translation of `poller_json_to_str(ctype)` of main.py: the neutral empty
object when there was no update yet or the last update is stale, otherwise
the cached payload for the channel, defaulting to the neutral empty object
when the channel has no cache entry. -/
def poller_json_to_str (st : HubState) (now : Nat) (ctype : ClientType) : String :=
  match st.lastTime with
  | none => "\x7b\x7d"
  | some t =>
    if now - t > POLLER_JSON_TIMEOUT_SECONDS then "\x7b\x7d"
    else match st.cache.get ctype with
      | some s => s
      | none => "\x7b\x7d"

/-- Serialization of a JSON string literal (escaping is immaterial to the
claims; the embedding only needs concatenation to be faithful). -/
def dumpsStr (s : String) : String := "\"" ++ s ++ "\""

/-- Serialization of a JSON list of strings as by `json.dumps`. -/
def dumpsStrList (l : List String) : String :=
  "[" ++ String.intercalate ", " (l.map dumpsStr) ++ "]"

/-- Serialization `json.dumps(dict(printers=new_poller_json['printers']))`,
with the inner `printers` value carried in serialized form. -/
def dumpsPrinters (p : String) : String :=
  "\x7b\"printers\": " ++ p ++ "\x7d"

/-- Serialization `json.dumps(dict(open=..., mentors=..., weather=...))`. -/
def dumpsSign (opn : Bool) (mentors : List String) (weather : String) : String :=
  "\x7b\"open\": " ++ (if opn then "true" else "false")
    ++ ", \"mentors\": " ++ dumpsStrList mentors
    ++ ", \"weather\": " ++ dumpsStr weather ++ "\x7d"

/-- Environment of one producer-message round: the wall clock and the results
of the external collaborator calls made while handling the message.
`Except.error` means the call raised. `hoursRes` carries the already
serialized `json.dumps` of `get_hours()`. -/
structure Env where
  now : Nat
  mentorsRes : Except Unit (List String)
  weatherRes : Except Unit String
  hoursRes : Except Unit String

/-- One value received from `ws.receive()` in the `root` handler: `None`,
a frame that `json.loads` rejects, or a parsed JSON object. -/
inductive RecvMsg where
  | isNone
  | malformed
  | json (pj : PollerJson)

/-- Observable outcome of handling one received value in `root`: the hub
state afterwards, whether the handler closed the producer connection
(via `ws.close()` on auth failure or in the exception handler), and the
channels dispatched to, in iteration order. -/
structure StepOut where
  st : HubState
  closed : Bool
  dispatched : List ClientType
deriving Repr

/-- The cache-diff loop of main.py lines 149-160: for each channel of the
freshly computed dict, in insertion order, update the cache and dispatch
exactly when the channel has no cache entry or the entry differs. -/
def cacheLoop (st : HubState) : List (ClientType × String) → HubState × List ClientType
  | [] => (st, [])
  | (c, p) :: rest =>
    if st.cache.get c ≠ some p then
      let st1 : HubState := { st with cache := st.cache.set c p }
      ((cacheLoop st1 rest).1, c :: (cacheLoop st1 rest).2)
    else cacheLoop st rest

/-- The dict `new_poller_json_str_dict` built at lines 144-147 of main.py,
in insertion order, given the results of the collaborator calls: the
serialized printers object, the serialized sign object (open flag true for
OPEN and FORCE_OPEN, mentors already emptied unless OPEN), and the
serialized hours list. -/
def derivedDict (pj : PollerJson) (mentors0 : List String) (p w hstr : String) :
    List (ClientType × String) :=
  let opn := is_open pj mentors0
  [(ClientType.PRINTERS, dumpsPrinters p),
   (ClientType.SIGN,
     dumpsSign (decide (opn = OpenType.FORCE_OPEN) || decide (opn = OpenType.OPEN))
       (if opn = OpenType.OPEN then mentors0 else []) w),
   (ClientType.HOURS, hstr)]

/-- Translation of the body of the `while is_valid(ws)` loop of the `root`
handler of main.py for one received value, with the enclosing
`try ... except` of lines 114/162-165: a `None` receive is skipped; a frame
that `json.loads` rejects raises, reaching the exception handler which closes
the connection; a missing or mismatching `key` closes the connection before
any global is touched; on successful authentication the update time is set
first, then the collaborators run (any raise again reaches the exception
handler, with the update time already written), then the per-channel dict is
built in insertion order PRINTERS, SIGN, HOURS and the cache-diff loop runs. -/
def processMsg (secret : String) (env : Env) (st : HubState) : RecvMsg → StepOut
  | RecvMsg.isNone => ⟨st, false, []⟩
  | RecvMsg.malformed => ⟨st, true, []⟩
  | RecvMsg.json pj =>
    match pj.key with
    | none => ⟨st, true, []⟩
    | some k =>
      if k ≠ secret then ⟨st, true, []⟩
      else
        let st1 : HubState := { st with lastTime := some env.now }
        match env.mentorsRes with
        | Except.error _ => ⟨st1, true, []⟩
        | Except.ok mentors0 =>
          match pj.printers with
          | none => ⟨st1, true, []⟩
          | some p =>
            match env.weatherRes with
            | Except.error _ => ⟨st1, true, []⟩
            | Except.ok w =>
              match env.hoursRes with
              | Except.error _ => ⟨st1, true, []⟩
              | Except.ok hstr =>
                let r := cacheLoop st1 (derivedDict pj mentors0 p w hstr)
                ⟨r.1, false, r.2⟩

/-- The receive loop of `root`: handle received values in order, stopping as
soon as the handler closes the connection (`is_valid` then fails and the
handler returns). Returns the final state, whether the connection was closed
and all dispatches in order. -/
def runMsgs (secret : String) (st : HubState) : List (Env × RecvMsg) → HubState × Bool × List ClientType
  | [] => (st, false, [])
  | (env, m) :: rest =>
    let out := processMsg secret env st m
    if out.closed then (out.st, true, out.dispatched)
    else
      let (st2, b, ds) := runMsgs secret out.st rest
      (st2, b, out.dispatched ++ ds)

/-- Possible fate of one subscriber's send inside the fan-out round:
the `ws.send` inside `update` returns, raises, or has not finished when
`gevent.joinall` gives up at the 5 second budget. -/
inductive SendOutcome where
  | ok
  | error
  | hang
deriving DecidableEq, Repr

/-- One subscriber connection as seen at dispatch time: its `is_valid`
status when the greenlet list comprehension snapshots the registry, and the
fate of its send in this round. -/
structure Subscriber where
  id : Nat
  valid : Bool
  outcome : SendOutcome
deriving DecidableEq, Repr

/-- Observable per-subscriber result of one fan-out round. -/
structure SubResult where
  id : Nat
  attempted : Bool
  delivered : Bool
  closedByDispatch : Bool
deriving DecidableEq, Repr

/-- Translation of `update(ws, ctype)` of main.py: the spawned greenlet tries
`ws.send(...)`; an exception closes that socket and nothing else; a send
still pending when the join budget elapses is abandoned, neither delivered
nor closed by the dispatcher. -/
def update (s : Subscriber) : SubResult :=
  match s.outcome with
  | SendOutcome.ok => ⟨s.id, true, true, false⟩
  | SendOutcome.error => ⟨s.id, true, false, true⟩
  | SendOutcome.hang => ⟨s.id, true, false, false⟩

/-- Fan-out of main.py lines 155-156: spawn one `update` greenlet per
registered subscriber that is still valid, then join them under the
5 second budget; the per-subscriber results are independent of each other. -/
def dispatch (subs : List Subscriber) : List SubResult :=
  (subs.filter (fun s => s.valid)).map update

/-- One parsed shift row of mentors.py, with start instant and duration in
seconds (mentors.py parses them to datetime and timedelta; only their order
and addition are used by the duty check). -/
structure Shift where
  name : String
  day_of_week : String
  start : Int
  duration : Int
deriving DecidableEq, Repr

/-- Duty predicate `is_mentor_on_duty` of mentors.py: the current time lies
in the half-open interval from the shift start, of the shift's length. -/
def is_mentor_on_duty (now : Int) (s : Shift) : Bool :=
  decide (now ≥ s.start ∧ now < s.start + s.duration)

/-- Translation of `get_mentors_on_duty()` of mentors.py: filter the shifts
returned by `get_shifts()` by the duty predicate and map to names. The
shifts collection is a Python set; `enum` is the sequence in which that set
iterates, an input here because set iteration order is unspecified. -/
def get_mentors_on_duty (now : Int) (enum : List Shift) : List String :=
  (enum.filter (is_mentor_on_duty now)).map Shift.name

/-- Characterization of the sequences a Python set built from the rows
`discovered` (in discovery order) can iterate in: some enumeration, without
repetition, of exactly the elements inserted. -/
def isEnumOf (enum discovered : List Shift) : Prop :=
  enum.Nodup ∧ (∀ s ∈ enum, s ∈ discovered) ∧ (∀ s ∈ discovered, s ∈ enum)

instance (enum discovered : List Shift) : Decidable (isEnumOf enum discovered) :=
  instDecidableAnd

/-- Reading the cache after a single assignment. -/
theorem Cache.get_set (c : Cache) (x y : ClientType) (v : String) :
    (c.set x v).get y = if y = x then some v else c.get y := by
  cases x <;> cases y <;> simp [Cache.set, Cache.get]

/-- The cache-diff loop never touches `last_poller_json_time`. -/
theorem cacheLoop_lastTime (st : HubState) (l : List (ClientType × String)) :
    (cacheLoop st l).1.lastTime = st.lastTime := by
  induction l generalizing st with
  | nil => rfl
  | cons hd tl ih =>
    obtain ⟨c, p⟩ := hd
    simp only [cacheLoop]
    split
    · exact ih _
    · exact ih st

/-- The cache-diff loop only dispatches channels present in the dict. -/
theorem cacheLoop_dispatch_subset (st : HubState) (l : List (ClientType × String)) :
    ∀ c ∈ (cacheLoop st l).2, c ∈ l.map Prod.fst := by
  induction l generalizing st with
  | nil => intro c hc; cases hc
  | cons hd tl ih =>
    obtain ⟨c', p'⟩ := hd
    intro c hc
    simp only [cacheLoop] at hc
    simp only [List.map_cons, List.mem_cons]
    by_cases hd : st.cache.get c' ≠ some p'
    · rw [if_pos hd] at hc
      rcases List.mem_cons.mp hc with h | h
      · exact Or.inl h
      · exact Or.inr (ih _ c h)
    · rw [if_neg hd] at hc
      exact Or.inr (ih st c hc)

/-- The cache-diff loop leaves channels outside the dict untouched. -/
theorem cacheLoop_get_not_mem (st : HubState) (l : List (ClientType × String))
    (c : ClientType) (h : c ∉ l.map Prod.fst) :
    (cacheLoop st l).1.cache.get c = st.cache.get c := by
  induction l generalizing st with
  | nil => rfl
  | cons hd tl ih =>
    obtain ⟨c', p'⟩ := hd
    simp only [List.map_cons, List.mem_cons, not_or] at h
    obtain ⟨hne, htl⟩ := h
    simp only [cacheLoop]
    split
    · rw [ih _ htl]
      simp [Cache.get_set, hne]
    · exact ih st htl

/-- Per-channel effect of the cache-diff loop when the dict's keys are
distinct: the channel's cache ends at the freshly computed payload, and
the channel is dispatched exactly when the cached payload was absent or
different. -/
theorem cacheLoop_mem (st : HubState) (l : List (ClientType × String))
    (hnd : (l.map Prod.fst).Nodup) (c : ClientType) (p : String)
    (hmem : (c, p) ∈ l) :
    (cacheLoop st l).1.cache.get c = some p ∧
    (c ∈ (cacheLoop st l).2 ↔ st.cache.get c ≠ some p) := by
  induction l generalizing st with
  | nil => cases hmem
  | cons hd tl ih =>
    obtain ⟨c', p'⟩ := hd
    simp only [List.map_cons, List.nodup_cons] at hnd
    obtain ⟨hc', hndtl⟩ := hnd
    rcases List.mem_cons.mp hmem with heq | htl
    · obtain ⟨hc, hp⟩ := Prod.mk.injEq .. ▸ heq
      subst hc; subst hp
      simp only [cacheLoop]
      split
      · rename_i hcond
        constructor
        · rw [cacheLoop_get_not_mem _ _ _ hc']
          simp [Cache.get_set]
        · simp only [List.mem_cons]
          constructor
          · intro _; exact hcond
          · intro _; exact Or.inl trivial
      · rename_i hcond
        push_neg at hcond
        constructor
        · rw [cacheLoop_get_not_mem _ _ _ hc']
          exact hcond
        · constructor
          · intro hmem2
            exact absurd (cacheLoop_dispatch_subset st tl c hmem2) hc'
          · intro hne; exact absurd hcond hne
    · have hcmem : c ∈ tl.map Prod.fst := List.mem_map.mpr ⟨(c, p), htl, rfl⟩
      have hne : c ≠ c' := fun h => hc' (h ▸ hcmem)
      simp only [cacheLoop]
      split
      · obtain ⟨h1, h2⟩ := ih { st with cache := st.cache.set c' p' } hndtl htl
        refine ⟨h1, ?_⟩
        simp only [List.mem_cons, h2]
        simp [Cache.get_set, hne]
      · exact ih st hndtl htl

/-- Handling of an authenticated message whose `get_mentors_on_duty` call
raises: the exception reaches the handler of lines 162-165, which closes the
connection; only the update time was written. -/
theorem processMsg_auth_mentors_error (secret : String) (env : Env) (st : HubState)
    (pj : PollerJson) (hk : pj.key = some secret)
    (hm : env.mentorsRes = Except.error ()) :
    processMsg secret env st (RecvMsg.json pj) = ⟨⟨st.cache, some env.now⟩, true, []⟩ := by
  simp [processMsg, hk, hm]

/-- Handling of an authenticated message with no `printers` field: the
KeyError of line 145 reaches the exception handler, which closes the
connection; only the update time was written. -/
theorem processMsg_auth_printers_none (secret : String) (env : Env) (st : HubState)
    (pj : PollerJson) (mentors0 : List String) (hk : pj.key = some secret)
    (hm : env.mentorsRes = Except.ok mentors0) (hp : pj.printers = none) :
    processMsg secret env st (RecvMsg.json pj) = ⟨⟨st.cache, some env.now⟩, true, []⟩ := by
  simp [processMsg, hk, hm, hp]

/-- Handling of an authenticated message whose `get_weather` call raises. -/
theorem processMsg_auth_weather_error (secret : String) (env : Env) (st : HubState)
    (pj : PollerJson) (mentors0 : List String) (p : String) (hk : pj.key = some secret)
    (hm : env.mentorsRes = Except.ok mentors0) (hp : pj.printers = some p)
    (hw : env.weatherRes = Except.error ()) :
    processMsg secret env st (RecvMsg.json pj) = ⟨⟨st.cache, some env.now⟩, true, []⟩ := by
  simp [processMsg, hk, hm, hp, hw]

/-- Handling of an authenticated message whose `get_hours` call raises. -/
theorem processMsg_auth_hours_error (secret : String) (env : Env) (st : HubState)
    (pj : PollerJson) (mentors0 : List String) (p w : String) (hk : pj.key = some secret)
    (hm : env.mentorsRes = Except.ok mentors0) (hp : pj.printers = some p)
    (hw : env.weatherRes = Except.ok w) (hh : env.hoursRes = Except.error ()) :
    processMsg secret env st (RecvMsg.json pj) = ⟨⟨st.cache, some env.now⟩, true, []⟩ := by
  simp [processMsg, hk, hm, hp, hw, hh]

/-- Handling of an authenticated message all of whose collaborator calls
succeed: the update time is written and the cache-diff loop runs over the
freshly derived dict. -/
theorem processMsg_ok (secret : String) (env : Env) (st : HubState)
    (pj : PollerJson) (mentors0 : List String) (p w hstr : String)
    (hk : pj.key = some secret) (hm : env.mentorsRes = Except.ok mentors0)
    (hp : pj.printers = some p) (hw : env.weatherRes = Except.ok w)
    (hh : env.hoursRes = Except.ok hstr) :
    processMsg secret env st (RecvMsg.json pj) =
      ⟨(cacheLoop ⟨st.cache, some env.now⟩ (derivedDict pj mentors0 p w hstr)).1, false,
       (cacheLoop ⟨st.cache, some env.now⟩ (derivedDict pj mentors0 p w hstr)).2⟩ := by
  simp [processMsg, hk, hm, hp, hw, hh]

/-- The keys of the derived dict, in insertion order. -/
theorem derivedDict_keys (pj : PollerJson) (mentors0 : List String) (p w hstr : String) :
    (derivedDict pj mentors0 p w hstr).map Prod.fst =
      [ClientType.PRINTERS, ClientType.SIGN, ClientType.HOURS] := rfl

/-- The keys of the derived dict are distinct. -/
theorem derivedDict_keys_nodup (pj : PollerJson) (mentors0 : List String) (p w hstr : String) :
    ((derivedDict pj mentors0 p w hstr).map Prod.fst).Nodup := by
  rw [derivedDict_keys]; decide

/-- C1: a parsed producer message whose `key` field is absent, or present
with any value different from the configured secret, closes the producer
connection, dispatches to nobody, leaves the cache and the update timestamp
exactly as they were, and stops the receive loop so that no further message
from that connection is processed. -/
theorem auth_failure_rejected (secret : String) (env : Env) (st : HubState)
    (pj : PollerJson) (rest : List (Env × RecvMsg))
    (h : pj.key = none ∨ ∃ k, pj.key = some k ∧ k ≠ secret) :
    processMsg secret env st (RecvMsg.json pj) = ⟨st, true, []⟩ ∧
    runMsgs secret st ((env, RecvMsg.json pj) :: rest) = (st, true, []) := by
  have h1 : processMsg secret env st (RecvMsg.json pj) = ⟨st, true, []⟩ := by
    rcases h with h | ⟨k, hk, hne⟩
    · simp [processMsg, h]
    · simp [processMsg, hk, hne]
  exact ⟨h1, by simp [runMsgs, h1]⟩

/-- Witness for C1 at a concrete input: an empty-cache hub, the secret
"secret" and a message carrying key "Secret" (a case variant). -/
theorem auth_failure_rejected_witness :
    processMsg "secret" ⟨0, Except.ok [], Except.ok "", Except.ok ""⟩
        ⟨⟨none, none, none, none⟩, none⟩ (RecvMsg.json ⟨some "Secret", none, none⟩) =
      ⟨⟨⟨none, none, none, none⟩, none⟩, true, []⟩ ∧
    runMsgs "secret" ⟨⟨none, none, none, none⟩, none⟩
        [(⟨0, Except.ok [], Except.ok "", Except.ok ""⟩,
          RecvMsg.json ⟨some "Secret", none, none⟩)] =
      (⟨⟨none, none, none, none⟩, none⟩, true, []) :=
  auth_failure_rejected "secret" _ _ _ _ (Or.inr ⟨"Secret", rfl, by decide⟩)

/-- C7: every successfully authenticated producer message sets
`last_poller_json_time` to the current instant, whatever the collaborator
calls do and whether or not any derived payload changed. -/
theorem authenticated_sets_time (secret : String) (env : Env) (st : HubState)
    (pj : PollerJson) (hk : pj.key = some secret) :
    (processMsg secret env st (RecvMsg.json pj)).st.lastTime = some env.now := by
  cases hm : env.mentorsRes with
  | error e =>
    cases e
    rw [processMsg_auth_mentors_error secret env st pj hk hm]
  | ok mentors0 =>
    cases hp : pj.printers with
    | none => rw [processMsg_auth_printers_none secret env st pj mentors0 hk hm hp]
    | some p =>
      cases hw : env.weatherRes with
      | error e =>
        cases e
        rw [processMsg_auth_weather_error secret env st pj mentors0 p hk hm hp hw]
      | ok w =>
        cases hh : env.hoursRes with
        | error e =>
          cases e
          rw [processMsg_auth_hours_error secret env st pj mentors0 p w hk hm hp hw hh]
        | ok hstr =>
          rw [processMsg_ok secret env st pj mentors0 p w hstr hk hm hp hw hh]
          exact cacheLoop_lastTime _ _

/-- Witness for C7 at a concrete input: the timestamp is written even though
the mentors lookup raises right afterwards. -/
theorem authenticated_sets_time_witness :
    (processMsg "s" ⟨7, Except.error (), Except.ok "", Except.ok ""⟩
        ⟨⟨none, none, none, none⟩, none⟩
        (RecvMsg.json ⟨some "s", none, none⟩)).st.lastTime = some 7 :=
  authenticated_sets_time "s" _ _ _ rfl

/-- C3: the payload accessor returns the cached serialized payload exactly
when a cache entry exists for the channel and the last authenticated contact
is within the 30 second staleness window; with no update ever recorded, a
stale last contact, or no cache entry for the channel it returns the neutral
empty object; concretely, reading one second past the window after an update
at time t yields the neutral empty object while reading one second after t
yields the real cached value. -/
theorem poller_json_to_str_staleness (st : HubState) (now : Nat) (ctype : ClientType) :
    (st.lastTime = none → poller_json_to_str st now ctype = "\x7b\x7d") ∧
    (∀ t, st.lastTime = some t → now - t > POLLER_JSON_TIMEOUT_SECONDS →
      poller_json_to_str st now ctype = "\x7b\x7d") ∧
    (∀ t s, st.lastTime = some t → now - t ≤ POLLER_JSON_TIMEOUT_SECONDS →
      st.cache.get ctype = some s → poller_json_to_str st now ctype = s) ∧
    (∀ t, st.lastTime = some t → now - t ≤ POLLER_JSON_TIMEOUT_SECONDS →
      st.cache.get ctype = none → poller_json_to_str st now ctype = "\x7b\x7d") ∧
    (∀ t s, st.lastTime = some t → st.cache.get ctype = some s →
      poller_json_to_str st (t + POLLER_JSON_TIMEOUT_SECONDS + 1) ctype = "\x7b\x7d" ∧
      poller_json_to_str st (t + 1) ctype = s) := by
  refine ⟨?_, ?_, ?_, ?_, ?_⟩
  · intro h; simp [poller_json_to_str, h]
  · intro t ht hgt
    simp [poller_json_to_str, ht, hgt]
  · intro t s ht hle hc
    simp [poller_json_to_str, ht, Nat.not_lt_of_le hle, hc]
  · intro t ht hle hc
    simp [poller_json_to_str, ht, Nat.not_lt_of_le hle, hc]
  · intro t s ht hc
    constructor
    · have : t + POLLER_JSON_TIMEOUT_SECONDS + 1 - t > POLLER_JSON_TIMEOUT_SECONDS := by
        omega
      simp [poller_json_to_str, ht, this]
    · have h2 : ¬ (t + 1 - t > POLLER_JSON_TIMEOUT_SECONDS) := by
        unfold POLLER_JSON_TIMEOUT_SECONDS; omega
      simp only [poller_json_to_str, ht]
      rw [if_neg h2]
      simp [hc]

/-- Witness for C3 at a concrete input: update recorded at time 5, cached
printers payload "X": stale at 36, fresh at 6. -/
theorem poller_json_to_str_staleness_witness :
    poller_json_to_str ⟨⟨none, some "X", none, none⟩, some 5⟩ 36 ClientType.PRINTERS =
        "\x7b\x7d" ∧
    poller_json_to_str ⟨⟨none, some "X", none, none⟩, some 5⟩ 6 ClientType.PRINTERS = "X" :=
  ⟨((poller_json_to_str_staleness ⟨⟨none, some "X", none, none⟩, some 5⟩ 36
      ClientType.PRINTERS).2.1 5 rfl (by decide)),
   ((poller_json_to_str_staleness ⟨⟨none, some "X", none, none⟩, some 5⟩ 6
      ClientType.PRINTERS).2.2.1 5 "X" rfl (by decide) rfl)⟩

/-- C8: for a producer state carrying a `sign` object, `is_open` follows the
decision table — door set forces CLOSED regardless of switches and duty;
else switch one follows the schedule (OPEN exactly when somebody is on
duty); else switch two forces open; else forced closed — always landing in
the four-value enumeration; in particular door off, switch one on, switch
two off and two mentors on duty yields OPEN. -/
theorem is_open_decision_table (pj : PollerJson) (s : SignState) (duty : List String)
    (hs : pj.sign = some s) :
    is_open pj duty =
      (if s.door then OpenType.CLOSED
       else if s.switch.one_on then
         (if duty.length > 0 then OpenType.OPEN else OpenType.CLOSED)
       else if s.switch.two_on then OpenType.FORCE_OPEN
       else OpenType.FORCE_CLOSE) ∧
    (is_open pj duty = OpenType.CLOSED ∨ is_open pj duty = OpenType.OPEN ∨
      is_open pj duty = OpenType.FORCE_OPEN ∨ is_open pj duty = OpenType.FORCE_CLOSE) ∧
    (s.door = false → s.switch.one_on = true → s.switch.two_on = false →
      duty.length = 2 → is_open pj duty = OpenType.OPEN) := by
  refine ⟨by simp [is_open, hs], ?_, ?_⟩
  · cases h : is_open pj duty
    · exact Or.inl rfl
    · exact Or.inr (Or.inl rfl)
    · exact Or.inr (Or.inr (Or.inl rfl))
    · exact Or.inr (Or.inr (Or.inr rfl))
  · intro hd h1 _ hl
    simp [is_open, hs, hd, h1, hl]

/-- Witness for C8 at a concrete input: door off, switch one on, switch two
off, two mentors on duty. -/
theorem is_open_decision_table_witness :
    is_open ⟨some "k", some ⟨false, ⟨true, false⟩⟩, none⟩ ["a", "b"] =
      (if (false : Bool) then OpenType.CLOSED
       else if (true : Bool) then
         (if ["a", "b"].length > 0 then OpenType.OPEN else OpenType.CLOSED)
       else if (false : Bool) then OpenType.FORCE_OPEN
       else OpenType.FORCE_CLOSE) ∧
    (is_open ⟨some "k", some ⟨false, ⟨true, false⟩⟩, none⟩ ["a", "b"] = OpenType.CLOSED ∨
      is_open ⟨some "k", some ⟨false, ⟨true, false⟩⟩, none⟩ ["a", "b"] = OpenType.OPEN ∨
      is_open ⟨some "k", some ⟨false, ⟨true, false⟩⟩, none⟩ ["a", "b"] = OpenType.FORCE_OPEN ∨
      is_open ⟨some "k", some ⟨false, ⟨true, false⟩⟩, none⟩ ["a", "b"] = OpenType.FORCE_CLOSE) ∧
    ((false : Bool) = false → (true : Bool) = true → (false : Bool) = false →
      (["a", "b"] : List String).length = 2 →
      is_open ⟨some "k", some ⟨false, ⟨true, false⟩⟩, none⟩ ["a", "b"] = OpenType.OPEN) :=
  is_open_decision_table ⟨some "k", some ⟨false, ⟨true, false⟩⟩, none⟩ ⟨false, ⟨true, false⟩⟩
    ["a", "b"] rfl

/-- C2: for an authenticated message whose collaborator calls all succeed,
each outbound channel is dispatched exactly when its freshly derived payload
differs byte-for-byte from the cached one or no payload was cached yet;
every channel's cache ends at the freshly derived payload (so an unchanged
channel's entry is left at its old, identical value); and if all three
derived payloads equal the cached ones, nothing at all is dispatched. -/
theorem dispatch_iff_payload_changed (secret : String) (env : Env) (st : HubState)
    (pj : PollerJson) (mentors0 : List String) (p w hstr : String)
    (hk : pj.key = some secret) (hm : env.mentorsRes = Except.ok mentors0)
    (hp : pj.printers = some p) (hw : env.weatherRes = Except.ok w)
    (hh : env.hoursRes = Except.ok hstr) :
    (ClientType.PRINTERS ∈ (processMsg secret env st (RecvMsg.json pj)).dispatched ↔
      st.cache.get ClientType.PRINTERS ≠ some (dumpsPrinters p)) ∧
    (ClientType.SIGN ∈ (processMsg secret env st (RecvMsg.json pj)).dispatched ↔
      st.cache.get ClientType.SIGN ≠
        some (dumpsSign
          (decide (is_open pj mentors0 = OpenType.FORCE_OPEN) ||
            decide (is_open pj mentors0 = OpenType.OPEN))
          (if is_open pj mentors0 = OpenType.OPEN then mentors0 else []) w)) ∧
    (ClientType.HOURS ∈ (processMsg secret env st (RecvMsg.json pj)).dispatched ↔
      st.cache.get ClientType.HOURS ≠ some hstr) ∧
    (processMsg secret env st (RecvMsg.json pj)).st.cache.get ClientType.PRINTERS =
      some (dumpsPrinters p) ∧
    (processMsg secret env st (RecvMsg.json pj)).st.cache.get ClientType.SIGN =
      some (dumpsSign
        (decide (is_open pj mentors0 = OpenType.FORCE_OPEN) ||
          decide (is_open pj mentors0 = OpenType.OPEN))
        (if is_open pj mentors0 = OpenType.OPEN then mentors0 else []) w) ∧
    (processMsg secret env st (RecvMsg.json pj)).st.cache.get ClientType.HOURS = some hstr ∧
    (st.cache.get ClientType.PRINTERS = some (dumpsPrinters p) →
      st.cache.get ClientType.SIGN =
        some (dumpsSign
          (decide (is_open pj mentors0 = OpenType.FORCE_OPEN) ||
            decide (is_open pj mentors0 = OpenType.OPEN))
          (if is_open pj mentors0 = OpenType.OPEN then mentors0 else []) w) →
      st.cache.get ClientType.HOURS = some hstr →
      (processMsg secret env st (RecvMsg.json pj)).dispatched = []) := by
  rw [processMsg_ok secret env st pj mentors0 p w hstr hk hm hp hw hh]
  have hnd := derivedDict_keys_nodup pj mentors0 p w hstr
  have hPR := cacheLoop_mem ⟨st.cache, some env.now⟩ (derivedDict pj mentors0 p w hstr) hnd
    ClientType.PRINTERS (dumpsPrinters p) (by simp [derivedDict])
  have hSI := cacheLoop_mem ⟨st.cache, some env.now⟩ (derivedDict pj mentors0 p w hstr) hnd
    ClientType.SIGN
    (dumpsSign
      (decide (is_open pj mentors0 = OpenType.FORCE_OPEN) ||
        decide (is_open pj mentors0 = OpenType.OPEN))
      (if is_open pj mentors0 = OpenType.OPEN then mentors0 else []) w)
    (by simp [derivedDict])
  have hHO := cacheLoop_mem ⟨st.cache, some env.now⟩ (derivedDict pj mentors0 p w hstr) hnd
    ClientType.HOURS hstr (by simp [derivedDict])
  refine ⟨hPR.2, hSI.2, hHO.2, hPR.1, hSI.1, hHO.1, ?_⟩
  intro e1 e2 e3
  refine List.eq_nil_iff_forall_not_mem.mpr ?_
  intro c hc
  have hcmem := cacheLoop_dispatch_subset ⟨st.cache, some env.now⟩
    (derivedDict pj mentors0 p w hstr) c hc
  rw [derivedDict_keys] at hcmem
  simp only [List.mem_cons, List.not_mem_nil, or_false] at hcmem
  rcases hcmem with rfl | rfl | rfl
  · exact (hPR.2.mp hc) e1
  · exact (hSI.2.mp hc) e2
  · exact (hHO.2.mp hc) e3

/-- Witness for C2 at a concrete input: empty cache, so every channel is
freshly cached; the concrete SIGN payload is checked literally. -/
theorem dispatch_iff_payload_changed_witness :
    (processMsg "s" ⟨7, Except.ok ["m"], Except.ok "w", Except.ok "H"⟩
        ⟨⟨none, none, none, none⟩, none⟩
        (RecvMsg.json ⟨some "s", none, some "P"⟩)).st.cache.get ClientType.PRINTERS =
      some (dumpsPrinters "P") ∧
    (ClientType.HOURS ∈ (processMsg "s" ⟨7, Except.ok ["m"], Except.ok "w", Except.ok "H"⟩
        ⟨⟨none, none, none, none⟩, none⟩
        (RecvMsg.json ⟨some "s", none, some "P"⟩)).dispatched ↔
      (⟨⟨none, none, none, none⟩, none⟩ : HubState).cache.get ClientType.HOURS ≠ some "H") :=
  ⟨(dispatch_iff_payload_changed "s" ⟨7, Except.ok ["m"], Except.ok "w", Except.ok "H"⟩
      ⟨⟨none, none, none, none⟩, none⟩ ⟨some "s", none, some "P"⟩ ["m"] "P" "w" "H"
      rfl rfl rfl rfl rfl).2.2.2.1,
   (dispatch_iff_payload_changed "s" ⟨7, Except.ok ["m"], Except.ok "w", Except.ok "H"⟩
      ⟨⟨none, none, none, none⟩, none⟩ ⟨some "s", none, some "P"⟩ ["m"] "P" "w" "H"
      rfl rfl rfl rfl rfl).2.2.1⟩

/-- C10: whenever `is_open` returns anything other than OPEN for an
authenticated round whose collaborator calls succeed, the SIGN payload is
built with an empty mentors list; for FORCE_OPEN in particular the payload
carries the open flag true together with no mentors, however many were on
duty. -/
theorem non_open_payload_empties_mentors (secret : String) (env : Env) (st : HubState)
    (pj : PollerJson) (mentors0 : List String) (p w hstr : String)
    (hk : pj.key = some secret) (hm : env.mentorsRes = Except.ok mentors0)
    (hp : pj.printers = some p) (hw : env.weatherRes = Except.ok w)
    (hh : env.hoursRes = Except.ok hstr)
    (hopn : is_open pj mentors0 ≠ OpenType.OPEN) :
    (processMsg secret env st (RecvMsg.json pj)).st.cache.get ClientType.SIGN =
      some (dumpsSign (decide (is_open pj mentors0 = OpenType.FORCE_OPEN)) [] w) ∧
    (is_open pj mentors0 = OpenType.FORCE_OPEN →
      (processMsg secret env st (RecvMsg.json pj)).st.cache.get ClientType.SIGN =
        some (dumpsSign true [] w)) := by
  rw [processMsg_ok secret env st pj mentors0 p w hstr hk hm hp hw hh]
  have hnd := derivedDict_keys_nodup pj mentors0 p w hstr
  have hSI := cacheLoop_mem ⟨st.cache, some env.now⟩ (derivedDict pj mentors0 p w hstr) hnd
    ClientType.SIGN
    (dumpsSign
      (decide (is_open pj mentors0 = OpenType.FORCE_OPEN) ||
        decide (is_open pj mentors0 = OpenType.OPEN))
      (if is_open pj mentors0 = OpenType.OPEN then mentors0 else []) w)
    (by simp [derivedDict])
  have h1 : (if is_open pj mentors0 = OpenType.OPEN then mentors0 else []) = [] :=
    if_neg hopn
  have h2 : decide (is_open pj mentors0 = OpenType.OPEN) = false := decide_eq_false hopn
  rw [h1, h2, Bool.or_false] at hSI
  refine ⟨hSI.1, ?_⟩
  intro hf
  rw [hSI.1, decide_eq_true hf]

/-- Witness for C10 at a concrete input: door off, both switches off forces
FORCE_CLOSE with a mentor on duty; the SIGN payload has open false and no
mentors. -/
theorem non_open_payload_empties_mentors_witness :
    (processMsg "s" ⟨7, Except.ok ["m"], Except.ok "w", Except.ok "H"⟩
        ⟨⟨none, none, none, none⟩, none⟩
        (RecvMsg.json ⟨some "s", some ⟨false, ⟨false, false⟩⟩, some "P"⟩)).st.cache.get
      ClientType.SIGN =
      some (dumpsSign
        (decide (is_open ⟨some "s", some ⟨false, ⟨false, false⟩⟩, some "P"⟩ ["m"] =
          OpenType.FORCE_OPEN)) [] "w") :=
  (non_open_payload_empties_mentors "s" ⟨7, Except.ok ["m"], Except.ok "w", Except.ok "H"⟩
    ⟨⟨none, none, none, none⟩, none⟩ ⟨some "s", some ⟨false, ⟨false, false⟩⟩, some "P"⟩
    ["m"] "P" "w" "H" rfl rfl rfl rfl rfl (by decide)).1

/-- C4 counterexample: at the concrete input of an unparseable frame, the
`json.loads` exception escapes the receive loop into the handler of lines
162-165, which closes the producer connection — the connection does not
remain open as the claim states. -/
theorem malformed_closes_connection_cex :
    (processMsg "s" ⟨0, Except.ok [], Except.ok "", Except.ok ""⟩
        ⟨⟨none, none, none, none⟩, none⟩ RecvMsg.malformed).closed = true := rfl

/-- C4 amended: an unparseable producer frame sends no reply and leaves the
cache and update timestamp untouched, but the raised exception reaches the
handler's exception handler, which closes the connection and ends the
receive loop. -/
theorem malformed_closes_and_preserves (secret : String) (env : Env) (st : HubState)
    (rest : List (Env × RecvMsg)) :
    processMsg secret env st RecvMsg.malformed = ⟨st, true, []⟩ ∧
    runMsgs secret st ((env, RecvMsg.malformed) :: rest) = (st, true, []) := by
  exact ⟨rfl, by simp [runMsgs, processMsg]⟩

/-- C5 counterexample: at the concrete input of an authenticated message
whose weather lookup raises, no channel is cached or dispatched — not even
PRINTERS, whose payload was derivable — and the producer connection is
closed, contrary to the claimed per-channel isolation. -/
theorem derivation_failure_cex :
    processMsg "s" ⟨0, Except.ok ["a"], Except.error (), Except.ok "[]"⟩
        ⟨⟨none, none, none, none⟩, none⟩
        (RecvMsg.json ⟨some "s", none, some "[]"⟩) =
      ⟨⟨⟨none, none, none, none⟩, some 0⟩, true, []⟩ := rfl

/-- C5 amended: when any collaborator call of an authenticated round raises
(mentors lookup, weather lookup, hours computation) or the message lacks the
`printers` field, the whole round is aborted: no channel is cached or
dispatched, the producer connection is closed, and only the update
timestamp (already written) remains. -/
theorem derivation_failure_aborts_round (secret : String) (env : Env) (st : HubState)
    (pj : PollerJson) (hk : pj.key = some secret)
    (h : env.mentorsRes = Except.error () ∨ pj.printers = none ∨
      env.weatherRes = Except.error () ∨ env.hoursRes = Except.error ()) :
    processMsg secret env st (RecvMsg.json pj) = ⟨⟨st.cache, some env.now⟩, true, []⟩ := by
  rcases h with hm | hp | hw | hh
  · exact processMsg_auth_mentors_error secret env st pj hk hm
  · cases hme : env.mentorsRes with
    | error e => cases e; exact processMsg_auth_mentors_error secret env st pj hk hme
    | ok m0 => exact processMsg_auth_printers_none secret env st pj m0 hk hme hp
  · cases hme : env.mentorsRes with
    | error e => cases e; exact processMsg_auth_mentors_error secret env st pj hk hme
    | ok m0 =>
      cases hpe : pj.printers with
      | none => exact processMsg_auth_printers_none secret env st pj m0 hk hme hpe
      | some p => exact processMsg_auth_weather_error secret env st pj m0 p hk hme hpe hw
  · cases hme : env.mentorsRes with
    | error e => cases e; exact processMsg_auth_mentors_error secret env st pj hk hme
    | ok m0 =>
      cases hpe : pj.printers with
      | none => exact processMsg_auth_printers_none secret env st pj m0 hk hme hpe
      | some p =>
        cases hwe : env.weatherRes with
        | error e =>
          cases e
          exact processMsg_auth_weather_error secret env st pj m0 p hk hme hpe hwe
        | ok w =>
          exact processMsg_auth_hours_error secret env st pj m0 p w hk hme hpe hwe hh

/-- Witness for the amended C5 at a concrete input: the mentors lookup
raises during an authenticated round. -/
theorem derivation_failure_aborts_round_witness :
    processMsg "s" ⟨3, Except.error (), Except.ok "w", Except.ok "[]"⟩
        ⟨⟨none, none, none, none⟩, none⟩
        (RecvMsg.json ⟨some "s", none, some "[]"⟩) =
      ⟨⟨⟨none, none, none, none⟩, some 3⟩, true, []⟩ :=
  derivation_failure_aborts_round "s" ⟨3, Except.error (), Except.ok "w", Except.ok "[]"⟩
    ⟨⟨none, none, none, none⟩, none⟩ ⟨some "s", none, some "[]"⟩ rfl (Or.inl rfl)

/-- A spawned send is always attempted, whatever its fate. -/
theorem update_attempted (s : Subscriber) : (update s).attempted = true := by
  cases h : s.outcome <;> simp [update, h]

/-- A spawned send closes its subscriber exactly when the send raises. -/
theorem update_closed_iff (s : Subscriber) :
    (update s).closedByDispatch = true ↔ s.outcome = SendOutcome.error := by
  cases h : s.outcome <;> simp [update, h]

/-- A send still pending at the join budget is abandoned: neither delivered
nor closed by the dispatcher. -/
theorem update_hang (s : Subscriber) (h : s.outcome = SendOutcome.hang) :
    (update s).closedByDispatch = false ∧ (update s).delivered = false := by
  simp [update, h]

/-- C6: a fan-out round spawns one independent send per subscriber that was
valid at snapshot time; position i of the round's results is a function of
subscriber i alone, so a failing or hanging sibling never prevents the
other deliveries from being attempted; a send that raises closes exactly
that subscriber's connection, and a send still pending at the join budget is
abandoned — neither delivered nor closed by the dispatcher. -/
theorem fanout_fault_isolation (subs : List Subscriber) (i : Nat)
    (hi : i < (subs.filter (fun s => s.valid)).length) :
    (dispatch subs).length = (subs.filter (fun s => s.valid)).length ∧
    (dispatch subs).get ⟨i, by simpa [dispatch] using hi⟩ =
      update ((subs.filter (fun s => s.valid)).get ⟨i, hi⟩) ∧
    (update ((subs.filter (fun s => s.valid)).get ⟨i, hi⟩)).attempted = true ∧
    ((update ((subs.filter (fun s => s.valid)).get ⟨i, hi⟩)).closedByDispatch = true ↔
      ((subs.filter (fun s => s.valid)).get ⟨i, hi⟩).outcome = SendOutcome.error) ∧
    (((subs.filter (fun s => s.valid)).get ⟨i, hi⟩).outcome = SendOutcome.hang →
      (update ((subs.filter (fun s => s.valid)).get ⟨i, hi⟩)).closedByDispatch = false ∧
      (update ((subs.filter (fun s => s.valid)).get ⟨i, hi⟩)).delivered = false) := by
  exact ⟨by simp [dispatch], List.get_map update,
    update_attempted _, update_closed_iff _, update_hang _⟩

/-- Witness for C6 at a concrete input: four subscribers of which three are
valid; the second valid one errors, yet its sibling results are computed
from their own outcomes and the erroring one is the one closed. -/
theorem fanout_fault_isolation_witness :
    (dispatch [⟨0, true, SendOutcome.ok⟩, ⟨1, true, SendOutcome.error⟩,
        ⟨2, true, SendOutcome.hang⟩, ⟨3, false, SendOutcome.ok⟩]).get ⟨1, by decide⟩ =
      update ((([⟨0, true, SendOutcome.ok⟩, ⟨1, true, SendOutcome.error⟩,
        ⟨2, true, SendOutcome.hang⟩, ⟨3, false, SendOutcome.ok⟩] : List Subscriber).filter
          (fun s => s.valid)).get ⟨1, by decide⟩) ∧
    ((update ((([⟨0, true, SendOutcome.ok⟩, ⟨1, true, SendOutcome.error⟩,
        ⟨2, true, SendOutcome.hang⟩, ⟨3, false, SendOutcome.ok⟩] : List Subscriber).filter
          (fun s => s.valid)).get ⟨1, by decide⟩)).closedByDispatch = true ↔
      ((([⟨0, true, SendOutcome.ok⟩, ⟨1, true, SendOutcome.error⟩,
        ⟨2, true, SendOutcome.hang⟩, ⟨3, false, SendOutcome.ok⟩] : List Subscriber).filter
          (fun s => s.valid)).get ⟨1, by decide⟩).outcome = SendOutcome.error) :=
  ⟨(fanout_fault_isolation [⟨0, true, SendOutcome.ok⟩, ⟨1, true, SendOutcome.error⟩,
      ⟨2, true, SendOutcome.hang⟩, ⟨3, false, SendOutcome.ok⟩] 1 (by decide)).2.1,
   (fanout_fault_isolation [⟨0, true, SendOutcome.ok⟩, ⟨1, true, SendOutcome.error⟩,
      ⟨2, true, SendOutcome.hang⟩, ⟨3, false, SendOutcome.ok⟩] 1 (by decide)).2.2.2.1⟩

/-- C9 counterexample: the shifts collection is a Python set, so the order
`get_mentors_on_duty` maps over is some enumeration of the set, not the
order the rows were read in. At the concrete input of two on-duty shifts
discovered as A then B, the reversed sequence is a legitimate enumeration of
the same set, and on it the function returns the names in the order B, A —
not the discovery order A, B the claim requires. -/
theorem mentors_discovery_order_cex :
    isEnumOf [⟨"B", "Monday", 0, 2⟩, ⟨"A", "Monday", 0, 2⟩]
      [⟨"A", "Monday", 0, 2⟩, ⟨"B", "Monday", 0, 2⟩] ∧
    (([⟨"A", "Monday", 0, 2⟩, ⟨"B", "Monday", 0, 2⟩] : List Shift).filter
      (is_mentor_on_duty 0)).map Shift.name = ["A", "B"] ∧
    get_mentors_on_duty 0 [⟨"B", "Monday", 0, 2⟩, ⟨"A", "Monday", 0, 2⟩] = ["B", "A"] ∧
    get_mentors_on_duty 0 [⟨"B", "Monday", 0, 2⟩, ⟨"A", "Monday", 0, 2⟩] ≠ ["A", "B"] := by
  refine ⟨by decide, rfl, rfl, by decide⟩

/-- C9 amended: over any enumeration of the set of parsed shifts,
`get_mentors_on_duty` returns the names of exactly the shifts whose
half-open interval contains the current instant, in the enumeration's order
(the set's unspecified iteration order, not discovery order); a name occurs
once per distinct on-duty shift bearing it, so duplicate names from distinct
shifts are preserved while exact duplicate rows were collapsed by the set. -/
theorem get_mentors_on_duty_spec (now : Int) (enum discovered : List Shift)
    (h : isEnumOf enum discovered) (nm : String) :
    get_mentors_on_duty now enum = (enum.filter (is_mentor_on_duty now)).map Shift.name ∧
    (nm ∈ get_mentors_on_duty now enum ↔
      ∃ s, s ∈ discovered ∧ is_mentor_on_duty now s = true ∧ s.name = nm) ∧
    (get_mentors_on_duty now enum).count nm =
      ((discovered.dedup).filter
        (fun s => is_mentor_on_duty now s && s.name == nm)).length := by
  obtain ⟨hnd, hsub1, hsub2⟩ := h
  have hperm : enum.Perm discovered.dedup := by
    refine (List.perm_ext_iff_of_nodup hnd (List.nodup_dedup discovered)).mpr ?_
    intro a
    rw [List.mem_dedup]
    exact ⟨fun ha => hsub1 a ha, fun ha => hsub2 a ha⟩
  refine ⟨rfl, ?_, ?_⟩
  · constructor
    · intro hmem
      obtain ⟨s, hs, rfl⟩ := List.mem_map.mp hmem
      obtain ⟨hsenum, hduty⟩ := List.mem_filter.mp hs
      exact ⟨s, hsub1 s hsenum, hduty, rfl⟩
    · rintro ⟨s, hs, hduty, rfl⟩
      exact List.mem_map.mpr ⟨s, List.mem_filter.mpr ⟨hsub2 s hs, hduty⟩, rfl⟩
  · rw [get_mentors_on_duty, List.count_eq_countP, List.countP_map, ← List.countP_eq_length_filter]
    rw [← hperm.countP_eq]
    rw [List.countP_filter]
    congr 1
    funext s
    simp [Function.comp, Bool.and_comm]

/-- Witness for the amended C9 at a concrete input: a set enumeration of
three distinct shifts, two of them on duty and sharing the name A. -/
theorem get_mentors_on_duty_spec_witness :
    (get_mentors_on_duty 1 [⟨"A", "Monday", 0, 2⟩, ⟨"A", "Monday", 1, 2⟩, ⟨"C", "Monday", 5, 2⟩] =
      (([⟨"A", "Monday", 0, 2⟩, ⟨"A", "Monday", 1, 2⟩, ⟨"C", "Monday", 5, 2⟩] : List Shift).filter
        (is_mentor_on_duty 1)).map Shift.name) ∧
    ("A" ∈ get_mentors_on_duty 1
        [⟨"A", "Monday", 0, 2⟩, ⟨"A", "Monday", 1, 2⟩, ⟨"C", "Monday", 5, 2⟩] ↔
      ∃ s, s ∈ ([⟨"A", "Monday", 1, 2⟩, ⟨"C", "Monday", 5, 2⟩, ⟨"A", "Monday", 0, 2⟩] :
          List Shift) ∧
        is_mentor_on_duty 1 s = true ∧ s.name = "A") ∧
    (get_mentors_on_duty 1
        [⟨"A", "Monday", 0, 2⟩, ⟨"A", "Monday", 1, 2⟩, ⟨"C", "Monday", 5, 2⟩]).count "A" =
      ((([⟨"A", "Monday", 1, 2⟩, ⟨"C", "Monday", 5, 2⟩, ⟨"A", "Monday", 0, 2⟩] :
          List Shift).dedup).filter
        (fun s => is_mentor_on_duty 1 s && s.name == "A")).length :=
  get_mentors_on_duty_spec 1
    [⟨"A", "Monday", 0, 2⟩, ⟨"A", "Monday", 1, 2⟩, ⟨"C", "Monday", 5, 2⟩]
    [⟨"A", "Monday", 1, 2⟩, ⟨"C", "Monday", 5, 2⟩, ⟨"A", "Monday", 0, 2⟩]
    (by decide) "A"

end PublicEndpoint
